import Mathlib

/-!
Shallow embedding of the MediQueue triage system (public/firebase-service.js,
public/sampleFirebase.js, and the page script) and proofs about it.

Modelling conventions:
* Firestore documents become Lean structures; a collection is a `List` of
  documents carrying their own `id` field.
* Priority classes are stored by the code as the strings 'red' / 'yellow' /
  'green' (displayed as CRITICAL / URGENT / NON-URGENT); they are embedded as
  the inductive `Priority`.
* Statuses ('waiting', 'in-treatment', 'available', 'occupied') stay strings,
  exactly as the code compares them.
* JS numbers used in vital-sign thresholds and wait-time arithmetic are
  embedded as rationals; all comparisons performed by the code are exact, so
  no rounding behaviour is lost.
* `serverTimestamp()` / `Date.now()` become an explicit `now : Nat`
  (milliseconds); Firestore timestamps on documents are `Option Nat`
  (milliseconds), `none` standing for a missing / unresolvable value.
* `updateDoc` on a missing document throws in Firestore; the enclosing
  try/catch of each service function then returns success:false with the
  state writes performed so far retained.  This is modelled by update
  helpers returning `Option` and service functions returning the resulting
  state paired with the success flag.
-/

namespace MediQueue

/-- Priority class as stored by the code: 'red' = critical, 'yellow' = urgent,
'green' = non-urgent. -/
inductive Priority where
  | red
  | yellow
  | green
deriving DecidableEq, Repr, BEq

/-- Vitals object built by the registration form: blood pressure string plus
numeric pulse and temperature.  A missing field is `none`. -/
structure Vitals where
  bloodPressure : String
  pulse : Option ℚ
  temperature : Option ℚ
deriving DecidableEq, Repr

/-- A document of the 'patients' collection (fields written by addPatient /
assignRoom in firebase-service.js). -/
structure PatientDoc where
  id : String
  name : String
  age : ℕ
  contact : String
  complaint : String
  priority : Priority
  status : String
  vitals : Vitals
  symptoms : List String
  checkInTime : Option ℕ
  assignedRoom : Option String
  assignedRoomNumber : Option String
  notes : String
deriving DecidableEq, Repr

/-- A document of the 'rooms' collection (fields written by addRoom /
assignRoom / dischargePatient in firebase-service.js). -/
structure RoomDoc where
  id : String
  roomNumber : String
  status : String
  assignedPatientId : Option String
  assignedPatientName : Option String
  assignedTime : Option ℕ
deriving DecidableEq, Repr

/-- The mutable store state the service functions operate on: the 'patients'
and 'rooms' collections.  The append-only 'audit_logs' collection is neither
read nor tested by any claim and is omitted. -/
structure AppState where
  patients : List PatientDoc
  rooms : List RoomDoc
deriving DecidableEq, Repr

/-! ### PriorityClassifier: calculatePriority (firebase-service.js 575-594) -/

/-- The critical symptom tags of calculatePriority. -/
def criticalSymptoms : List String :=
  ["chest_pain", "breathing", "bleeding", "unconscious"]

/-- JS truthiness-guarded threshold test: the code writes
(vitals.pulse && vitals.pulse > 120), so an absent field or a zero value is
falsy and never triggers the comparison. -/
def jsNumGt (x : Option ℚ) (bound : ℚ) : Bool :=
  match x with
  | none => false
  | some q => q != 0 && decide (bound < q)

/-- calculatePriority (firebase-service.js): critical symptoms give 'red',
fever/pain or pulse over 120 or temperature over 103 give 'yellow',
otherwise 'green'. -/
def calculatePriority (symptoms : List String) (vitals : Vitals) : Priority :=
  if symptoms.any (fun s => criticalSymptoms.contains s) then
    .red
  else if symptoms.contains "fever" || symptoms.contains "pain"
      || jsNumGt vitals.pulse 120 || jsNumGt vitals.temperature 103 then
    .yellow
  else
    .green

theorem jsNumGt_eq_true_iff (x : Option ℚ) (bound : ℚ) (hb : 0 ≤ bound) :
    jsNumGt x bound = true ↔ ∃ q, x = some q ∧ bound < q := by
  cases x with
  | none => simp [jsNumGt]
  | some q =>
    simp only [jsNumGt, Bool.and_eq_true, bne_iff_ne, ne_eq, decide_eq_true_eq,
      Option.some.injEq]
    constructor
    · rintro ⟨-, h⟩
      exact ⟨q, rfl, h⟩
    · rintro ⟨q', rfl, h⟩
      exact ⟨by intro h0; rw [h0] at h; exact absurd (hb.trans_lt h) (lt_irrefl 0), h⟩

/-- C2: calculatePriority is a pure total function; it returns 'red'
(critical) exactly when the symptom list meets the critical set
{chest_pain, breathing, bleeding, unconscious}; otherwise 'yellow' (urgent)
exactly when the symptoms contain fever or pain, or pulse is present and over
120, or temperature is present and over 103; otherwise 'green' (non-urgent).
A missing vitals field never triggers a threshold check (it classifies the
same as an explicit zero). -/
theorem calculatePriority_spec (symptoms : List String) (vitals : Vitals) :
    (calculatePriority symptoms vitals = .red ↔
      ∃ s ∈ symptoms, s ∈ criticalSymptoms)
    ∧ (calculatePriority symptoms vitals = .yellow ↔
      (¬ ∃ s ∈ symptoms, s ∈ criticalSymptoms) ∧
        ("fever" ∈ symptoms ∨ "pain" ∈ symptoms ∨
          (∃ p, vitals.pulse = some p ∧ 120 < p) ∨
          (∃ t, vitals.temperature = some t ∧ 103 < t)))
    ∧ (calculatePriority symptoms vitals = .green ↔
      (¬ ∃ s ∈ symptoms, s ∈ criticalSymptoms) ∧
        ¬ ("fever" ∈ symptoms ∨ "pain" ∈ symptoms ∨
          (∃ p, vitals.pulse = some p ∧ 120 < p) ∨
          (∃ t, vitals.temperature = some t ∧ 103 < t)))
    ∧ calculatePriority symptoms { vitals with pulse := none, temperature := none }
        = calculatePriority symptoms
            { vitals with pulse := some 0, temperature := some 0 } := by
  have hC : (symptoms.any (fun s => criticalSymptoms.contains s) = true) ↔
      ∃ s ∈ symptoms, s ∈ criticalSymptoms := by
    simp [List.any_eq_true]
  have hU : (symptoms.contains "fever" || symptoms.contains "pain"
        || jsNumGt vitals.pulse 120 || jsNumGt vitals.temperature 103) = true ↔
      ("fever" ∈ symptoms ∨ "pain" ∈ symptoms ∨
        (∃ p, vitals.pulse = some p ∧ 120 < p) ∨
        (∃ t, vitals.temperature = some t ∧ 103 < t)) := by
    simp [Bool.or_eq_true, jsNumGt_eq_true_iff _ _ (by norm_num : (0:ℚ) ≤ 120),
      jsNumGt_eq_true_iff _ _ (by norm_num : (0:ℚ) ≤ 103), or_assoc]
  refine ⟨?_, ?_, ?_, ?_⟩
  · unfold calculatePriority
    split_ifs with h1 h2 <;> simp_all
  · unfold calculatePriority
    split_ifs with h1 h2 <;> simp_all
  · unfold calculatePriority
    split_ifs with h1 h2 <;> simp_all
  · simp [calculatePriority, jsNumGt]

/-! ### QueueOrderer: the comparator sort in renderQueue (page script 210-217)

The page script sorts a copy of the snapshot:
sortedPatients = [...patients].sort(comparator), where the comparator
compares priorityOrder = (red 1, yellow 2, green 3) and, on a tie, the
check-in timestamps with new Date(0) as fallback for a missing/unresolvable
one.  Array.prototype.sort is a stable sort (ES2019), and a stable sort by a
comparator cmp is exactly insertion sort by the total preorder
(cmp a b <= 0), which is how the sort is embedded here. -/

/-- priorityOrder map of the page script: red 1, yellow 2, green 3. -/
def priorityRank : Priority → ℕ
  | .red => 1
  | .yellow => 2
  | .green => 3

/-- Check-in time used by the comparator:
a.checkInTime?.toDate?.() || new Date(0), i.e. the stored timestamp with 0 as
the fallback for a missing one. -/
def checkInMillis (p : PatientDoc) : ℕ :=
  p.checkInTime.getD 0

/-- Comparator of renderQueue as a signed integer:
rank difference when ranks differ, otherwise timestamp difference. -/
def queueCompare (a b : PatientDoc) : ℤ :=
  if priorityRank a.priority ≠ priorityRank b.priority then
    (priorityRank a.priority : ℤ) - (priorityRank b.priority : ℤ)
  else
    (checkInMillis a : ℤ) - (checkInMillis b : ℤ)

/-- The total preorder induced by the comparator. -/
def queueLE (a b : PatientDoc) : Prop := queueCompare a b ≤ 0

instance : DecidableRel queueLE :=
  fun a b => (inferInstance : Decidable (queueCompare a b ≤ 0))

theorem queueLE_iff (a b : PatientDoc) :
    queueLE a b ↔ priorityRank a.priority < priorityRank b.priority ∨
      (priorityRank a.priority = priorityRank b.priority ∧
        checkInMillis a ≤ checkInMillis b) := by
  unfold queueLE queueCompare
  split_ifs with h <;> omega

instance : IsTotal PatientDoc queueLE :=
  ⟨fun a b => by
    rw [queueLE_iff, queueLE_iff]; omega⟩

instance : IsTrans PatientDoc queueLE :=
  ⟨fun a b c hab hbc => by
    rw [queueLE_iff] at *; omega⟩

/-- The sorted queue produced by renderQueue (the JS engine's stable sort by
the comparator, realized as insertion sort by the induced total preorder). -/
def renderQueueOrder (patients : List PatientDoc) : List PatientDoc :=
  List.insertionSort queueLE patients

/-- Sort key: (priority rank, effective check-in time).  Two patients compare
equal under the comparator exactly when their keys coincide. -/
def queueKey (p : PatientDoc) : ℕ × ℕ :=
  (priorityRank p.priority, checkInMillis p)

theorem queueKey_eq_of_not_queueLE {a b : PatientDoc} (h : ¬ queueLE a b) :
    queueKey b ≠ queueKey a := by
  rw [queueLE_iff] at h
  intro hk
  simp only [queueKey, Prod.mk.injEq] at hk
  omega

theorem filter_orderedInsert_key_eq (x : PatientDoc) (k : ℕ × ℕ)
    (hx : queueKey x = k) : ∀ l : List PatientDoc,
    (l.orderedInsert queueLE x).filter (fun p => decide (queueKey p = k))
      = x :: l.filter (fun p => decide (queueKey p = k))
  | [] => by simp [hx]
  | b :: l => by
    rw [List.orderedInsert]
    split_ifs with h
    · simp [hx]
    · have hb : ¬ queueKey b = k := by
        rw [← hx]; exact queueKey_eq_of_not_queueLE h
      simp [hb, filter_orderedInsert_key_eq x k hx l]

theorem filter_orderedInsert_key_ne (x : PatientDoc) (k : ℕ × ℕ)
    (hx : ¬ queueKey x = k) : ∀ l : List PatientDoc,
    (l.orderedInsert queueLE x).filter (fun p => decide (queueKey p = k))
      = l.filter (fun p => decide (queueKey p = k))
  | [] => by simp [hx]
  | b :: l => by
    rw [List.orderedInsert]
    split_ifs with h
    · simp [List.filter_cons, hx]
    · simp [List.filter_cons, filter_orderedInsert_key_ne x k hx l]

theorem filter_renderQueueOrder (k : ℕ × ℕ) : ∀ l : List PatientDoc,
    (renderQueueOrder l).filter (fun p => decide (queueKey p = k))
      = l.filter (fun p => decide (queueKey p = k))
  | [] => rfl
  | a :: l => by
    show ((renderQueueOrder l).orderedInsert queueLE a).filter _ = _
    by_cases ha : queueKey a = k
    · rw [filter_orderedInsert_key_eq a k ha, filter_renderQueueOrder k l,
        List.filter_cons]
      simp [ha]
    · rw [filter_orderedInsert_key_ne a k ha, filter_renderQueueOrder k l,
        List.filter_cons]
      simp [ha]

/-- C3: renderQueue's sort returns a permutation of its input, ordered by
priority rank ascending (red=1, yellow=2, green=3) with ties broken by
check-in time ascending; it is stable (for every sort key, the sublist of
patients with that key is exactly the input's sublist with that key); a
missing check-in timestamp makes the comparator behave as if the patient
checked in at time zero.  The input itself is untouched: the code sorts the
copy [...patients], and the embedding is a pure function of the input list. -/
theorem renderQueueOrder_spec (l : List PatientDoc) :
    (renderQueueOrder l).Perm l
    ∧ (renderQueueOrder l).Pairwise (fun a b =>
        priorityRank a.priority ≤ priorityRank b.priority ∧
          (priorityRank a.priority = priorityRank b.priority →
            checkInMillis a ≤ checkInMillis b))
    ∧ (∀ k : ℕ × ℕ,
        (renderQueueOrder l).filter (fun p => decide (queueKey p = k))
          = l.filter (fun p => decide (queueKey p = k)))
    ∧ (∀ a b : PatientDoc,
        queueCompare { a with checkInTime := none } b
          = queueCompare { a with checkInTime := some 0 } b
        ∧ queueCompare b { a with checkInTime := none }
          = queueCompare b { a with checkInTime := some 0 })
    ∧ priorityRank .red = 1 ∧ priorityRank .yellow = 2
    ∧ priorityRank .green = 3 := by
  refine ⟨List.perm_insertionSort queueLE l, ?_,
    fun k => filter_renderQueueOrder k l, ?_, rfl, rfl, rfl⟩
  · have hs := List.sorted_insertionSort queueLE l
    exact List.Pairwise.imp
      (fun {a b} hab => by rw [queueLE_iff] at hab; omega) hs
  · intro a b
    constructor <;> simp [queueCompare, checkInMillis]

/-! ### SlotScheduler: computeTimesForSlotIndex (sampleFirebase.js 20-24, 41-49, 89-94)

Times of day are HH:mm strings in the source; since pad/format is a bijection
between minutes-since-midnight in [0, 1440) and those strings, a time of day
is embedded as its minutes-since-midnight count. -/

/-- MAX_APPOINTMENTS_PER_DAY (sampleFirebase.js). -/
def MAX_APPOINTMENTS_PER_DAY : ℕ := 50

/-- CLINIC_START_TIME = '09:00' as minutes since midnight. -/
def CLINIC_START_TIME : ℕ := 9 * 60

/-- SLOT_DURATION_MIN (consult minutes). -/
def SLOT_DURATION_MIN : ℕ := 25

/-- BUFFER_MIN (buffer between patients). -/
def BUFFER_MIN : ℕ := 5

/-- SLOT_TOTAL_MIN = SLOT_DURATION_MIN + BUFFER_MIN. -/
def SLOT_TOTAL_MIN : ℕ := SLOT_DURATION_MIN + BUFFER_MIN

/-- addMinutesToTime: the source parses HH:mm, pours it into a Date, adds the
minutes and reads back getHours/getMinutes, so for a nonnegative increment the
result is addition modulo one day (1440 minutes); the date component the Date
may roll over to is discarded. -/
def addMinutesToTime (hhmm : ℕ) (minutesToAdd : ℕ) : ℕ :=
  (hhmm + minutesToAdd) % 1440

/-- Start and end time of a slot, as computeTimesForSlotIndex returns them. -/
structure SlotTimes where
  appointmentStartTime : ℕ
  appointmentEndTime : ℕ
deriving DecidableEq, Repr

/-- computeTimesForSlotIndex: start = clinic open + slotIndex * slot width,
end = start + consult duration (both via addMinutesToTime). -/
def computeTimesForSlotIndex (slotIndex : ℕ) : SlotTimes :=
  let minutesFromStart := slotIndex * SLOT_TOTAL_MIN
  let start := addMinutesToTime CLINIC_START_TIME minutesFromStart
  { appointmentStartTime := start
    appointmentEndTime := addMinutesToTime start SLOT_DURATION_MIN }

/-- C4: for every slot index i, the end time of slot i is its start time plus
the consult duration (25 minutes, as time-of-day addition), the start of slot
i+1 is the start of slot i plus consult plus buffer (30 minutes), and slot 0
starts at the clinic-open time 09:00 (minute 540 of the day). -/
theorem computeTimesForSlotIndex_spec (i : ℕ) :
    (computeTimesForSlotIndex i).appointmentEndTime
      = addMinutesToTime (computeTimesForSlotIndex i).appointmentStartTime
          SLOT_DURATION_MIN
    ∧ (computeTimesForSlotIndex (i + 1)).appointmentStartTime
      = addMinutesToTime (computeTimesForSlotIndex i).appointmentStartTime
          (SLOT_DURATION_MIN + BUFFER_MIN)
    ∧ (computeTimesForSlotIndex 0).appointmentStartTime = CLINIC_START_TIME
    ∧ SLOT_DURATION_MIN = 25 ∧ BUFFER_MIN = 5 ∧ CLINIC_START_TIME = 9 * 60 := by
  refine ⟨rfl, ?_, rfl, rfl, rfl, rfl⟩
  show (CLINIC_START_TIME + (i + 1) * SLOT_TOTAL_MIN) % 1440
      = ((CLINIC_START_TIME + i * SLOT_TOTAL_MIN) % 1440
          + (SLOT_DURATION_MIN + BUFFER_MIN)) % 1440
  rw [Nat.mod_add_mod]
  unfold SLOT_TOTAL_MIN SLOT_DURATION_MIN BUFFER_MIN CLINIC_START_TIME
  omega

/-! ### TokenAllocator (sampleFirebase.js addPatient, line 107)

addPatient computes the appointment date with findEarliestAvailableDate
(which only returns a date whose waiting count is below
MAX_APPOINTMENTS_PER_DAY) and then calls
generateTokenForDate(patientData.priority, appointmentDate).  That function is
called but nowhere defined in the sources, so it is modelled from the spec. -/

/-- Modelled from the spec: the numeric band base of each priority class
(nonUrgent/green 100, urgent/yellow 200, critical/red 300); the definition of
`generateTokenForDate` itself is missing from the sources. -/
def tokenBase : Priority → ℕ
  | .green => 100
  | .yellow => 200
  | .red => 300

/-- Modelled from the spec: `generateTokenForDate` (called at
sampleFirebase.js line 107 but not defined anywhere in the sources) returns
band base + n where n = 1 + the count of currently-waiting patients already
in that priority class within the date series; `waitingOnDate` is the
snapshot of waiting patients scheduled on the appointment date. -/
def generateTokenForDate (priority : Priority)
    (waitingOnDate : List PatientDoc) : ℕ :=
  tokenBase priority
    + ((waitingOnDate.filter (fun p => p.priority == priority)).length + 1)

/-- C5: under the scheduler's guarantee that the chosen date holds fewer than
MAX_APPOINTMENTS_PER_DAY (50) waiting patients, every allocated token equals
its band base plus (1 + count of waiting patients of the same class on that
date), and the bands are disjoint: green tokens lie in [100,200), yellow in
[200,300), red in [300,400). -/
theorem generateTokenForDate_spec (priority : Priority)
    (waitingOnDate : List PatientDoc)
    (h : waitingOnDate.length < MAX_APPOINTMENTS_PER_DAY) :
    generateTokenForDate priority waitingOnDate
      = tokenBase priority
        + ((waitingOnDate.filter (fun p => p.priority == priority)).length + 1)
    ∧ (priority = .green →
        100 ≤ generateTokenForDate priority waitingOnDate ∧
        generateTokenForDate priority waitingOnDate < 200)
    ∧ (priority = .yellow →
        200 ≤ generateTokenForDate priority waitingOnDate ∧
        generateTokenForDate priority waitingOnDate < 300)
    ∧ (priority = .red →
        300 ≤ generateTokenForDate priority waitingOnDate ∧
        generateTokenForDate priority waitingOnDate < 400) := by
  have hf : (waitingOnDate.filter (fun p => p.priority == priority)).length
      ≤ waitingOnDate.length := List.length_filter_le _ _
  have hcap : (waitingOnDate.filter (fun p => p.priority == priority)).length
      < 50 := lt_of_le_of_lt hf h
  refine ⟨rfl, ?_, ?_, ?_⟩ <;>
    · rintro rfl
      simp only [generateTokenForDate, tokenBase]
      omega

/-- Witness for C5 at a concrete input: an empty waiting snapshot gives a
green token inside [100, 200). -/
theorem generateTokenForDate_spec_witness :
    100 ≤ generateTokenForDate .green [] ∧
    generateTokenForDate .green [] < 200 :=
  (generateTokenForDate_spec .green [] (by decide)).2.1 rfl

/-! ### Statistics: getStatistics (firebase-service.js 452-512) -/

/-- The statistics record getStatistics returns. -/
structure Stats where
  totalPatients : ℕ
  criticalCount : ℕ
  urgentCount : ℕ
  normalCount : ℕ
  averageWaitTime : ℤ
  roomsOccupied : ℕ
  roomsAvailable : ℕ
deriving DecidableEq, Repr

/-- getStatistics: despite its comment, the patients query carries no status
filter, so every patient document (waiting or in-treatment) is counted.  The
wait-time reduce adds (now - checkInTime) in minutes for each patient whose
checkInTime is present, and the average divides by the length of the whole
patient list before flooring. -/
def getStatistics (patients : List PatientDoc) (rooms : List RoomDoc)
    (now : ℕ) : Stats :=
  let critical := (patients.filter (fun p => p.priority == Priority.red)).length
  let urgent := (patients.filter (fun p => p.priority == Priority.yellow)).length
  let normal := (patients.filter (fun p => p.priority == Priority.green)).length
  let totalWait : ℚ := patients.foldl
    (fun sum patient =>
      match patient.checkInTime with
      | some checkIn => sum + ((now : ℚ) - (checkIn : ℚ)) / 1000 / 60
      | none => sum) 0
  let avgWaitTime : ℤ :=
    if 0 < patients.length then ⌊totalWait / (patients.length : ℚ)⌋ else 0
  let roomsOccupied := (rooms.filter (fun r => r.status == "occupied")).length
  let roomsAvailable := (rooms.filter (fun r => r.status == "available")).length
  { totalPatients := patients.length
    criticalCount := critical
    urgentCount := urgent
    normalCount := normal
    averageWaitTime := avgWaitTime
    roomsOccupied := roomsOccupied
    roomsAvailable := roomsAvailable }

/-- Sum, in minutes, of the waits of the patients whose check-in time is
present. -/
def waitSum (now : ℕ) (patients : List PatientDoc) : ℚ :=
  ((patients.filterMap (fun p => p.checkInTime)).map
    (fun t : ℕ => ((now : ℚ) - (t : ℚ)) / 1000 / 60)).sum

theorem waitFold_eq (now : ℕ) : ∀ (l : List PatientDoc) (init : ℚ),
    l.foldl
      (fun sum patient =>
        match patient.checkInTime with
        | some checkIn => sum + ((now : ℚ) - (checkIn : ℚ)) / 1000 / 60
        | none => sum) init
      = init + waitSum now l
  | [], init => by simp [waitSum]
  | p :: l, init => by
    cases hc : p.checkInTime with
    | none =>
      simp only [List.foldl_cons, hc, waitFold_eq now l, waitSum,
        List.filterMap_cons, hc]
    | some t =>
      simp only [List.foldl_cons, hc, waitFold_eq now l, waitSum,
        List.filterMap_cons, hc, List.map_cons, List.sum_cons]
      ring

/-- Concrete waiting patient used in the C6 counterexample: checked in at
epoch 0. -/
def c6PatientA : PatientDoc :=
  { id := "pA", name := "Ann", age := 30, contact := "555-1", complaint := ""
    priority := .green, status := "waiting"
    vitals := { bloodPressure := "", pulse := none, temperature := none }
    symptoms := [], checkInTime := some 0, assignedRoom := none
    assignedRoomNumber := none, notes := "" }

/-- Concrete in-treatment patient used in the C6 counterexample: no resolvable
check-in time. -/
def c6PatientB : PatientDoc :=
  { id := "pB", name := "Bob", age := 40, contact := "555-2", complaint := ""
    priority := .green, status := "in-treatment"
    vitals := { bloodPressure := "", pulse := none, temperature := none }
    symptoms := [], checkInTime := none, assignedRoom := some "r1"
    assignedRoomNumber := some "R1", notes := "" }

/-- C6 counterexample: at now = 1200000 ms (20 minutes past epoch) with one
waiting patient checked in at 0 and one in-treatment patient without a
check-in time, getStatistics reports totalPatients = 2 although only 1
patient is waiting, and averageWaitTime = 10 although the floored mean over
patients with a resolvable check-in time is 20: the counts run over every
patient document and the average divides by that same total count. -/
theorem getStatistics_claim_counterexample :
    (getStatistics [c6PatientA, c6PatientB] [] 1200000).totalPatients = 2
    ∧ ([c6PatientA, c6PatientB].filter
        (fun p => p.status == "waiting")).length = 1
    ∧ (getStatistics [c6PatientA, c6PatientB] [] 1200000).averageWaitTime = 10
    ∧ ⌊waitSum 1200000 [c6PatientA, c6PatientB]
        / (([c6PatientA, c6PatientB].filterMap
            (fun p => p.checkInTime)).length : ℚ)⌋ = 20 := by
  refine ⟨rfl, rfl, ?_, ?_⟩
  · simp [getStatistics, c6PatientA, c6PatientB]
    norm_num [Int.floor_ofNat]
  · simp [waitSum, c6PatientA, c6PatientB]
    norm_num [Int.floor_ofNat]

/-- C6 (amended): getStatistics computes the total and the per-class counts
over all patient documents in the store (waiting and in-treatment alike;
discharged patients are deleted, hence never present), its average wait time
is the floor of the sum of (now - checkInTime) in minutes over the patients
with a present check-in time divided by the total number of patients (0 when
there are none), and the room occupied/available counts come from the Room
set directly. -/
theorem getStatistics_spec (patients : List PatientDoc)
    (rooms : List RoomDoc) (now : ℕ) :
    (getStatistics patients rooms now).totalPatients = patients.length
    ∧ (getStatistics patients rooms now).criticalCount
      = (patients.filter (fun p => p.priority == Priority.red)).length
    ∧ (getStatistics patients rooms now).urgentCount
      = (patients.filter (fun p => p.priority == Priority.yellow)).length
    ∧ (getStatistics patients rooms now).normalCount
      = (patients.filter (fun p => p.priority == Priority.green)).length
    ∧ (getStatistics patients rooms now).averageWaitTime
      = (if patients = [] then 0
          else ⌊waitSum now patients / (patients.length : ℚ)⌋)
    ∧ (getStatistics patients rooms now).roomsOccupied
      = (rooms.filter (fun r => r.status == "occupied")).length
    ∧ (getStatistics patients rooms now).roomsAvailable
      = (rooms.filter (fun r => r.status == "available")).length := by
  refine ⟨rfl, rfl, rfl, rfl, ?_, rfl, rfl⟩
  show (if 0 < patients.length then
      ⌊(patients.foldl _ 0) / (patients.length : ℚ)⌋ else 0) = _
  rw [waitFold_eq now patients 0]
  rcases patients with - | ⟨p, l⟩
  · simp
  · simp [List.length_cons]

/-! ### RoomMatcher: assignRoom and dischargePatient (firebase-service.js 271-336)

Firestore updateDoc merges the given fields into the document with the given
id and throws when no such document exists; each service function wraps its
body in try/catch and reports a thrown error as success:false, keeping
whatever writes already happened.  The update helpers therefore return
`Option` (none = the update threw) and the service functions return the
resulting state together with the success flag. -/

/-- updateDoc on the 'patients' collection. -/
def updatePatientDoc (patients : List PatientDoc) (patientId : String)
    (f : PatientDoc → PatientDoc) : Option (List PatientDoc) :=
  if patients.any (fun p => p.id == patientId) then
    some (patients.map (fun p => if p.id == patientId then f p else p))
  else
    none

/-- updateDoc on the 'rooms' collection. -/
def updateRoomDoc (rooms : List RoomDoc) (roomId : String)
    (f : RoomDoc → RoomDoc) : Option (List RoomDoc) :=
  if rooms.any (fun r => r.id == roomId) then
    some (rooms.map (fun r => if r.id == roomId then f r else r))
  else
    none

/-- assignRoom (firebase-service.js): updates the patient (assignedRoom set,
status 'in-treatment'), then the room (status 'occupied', patient id, patient
name, assigned time).  The function never reads the room's status: there is
no availability check of any kind. -/
def assignRoom (s : AppState) (patientId roomId patientName : String)
    (now : ℕ) : AppState × Bool :=
  match updatePatientDoc s.patients patientId
      (fun p => { p with assignedRoom := some roomId,
                         status := "in-treatment" }) with
  | none => (s, false)
  | some ps =>
    match updateRoomDoc s.rooms roomId
        (fun r => { r with status := "occupied",
                           assignedPatientId := some patientId,
                           assignedPatientName := some patientName,
                           assignedTime := some now }) with
    | none => ({ s with patients := ps }, false)
    | some rs => ({ patients := ps, rooms := rs }, true)

/-- The field update the room branch of dischargePatient applies to a room:
status 'available' and all three patient fields nulled. -/
def releaseRoomFields (r : RoomDoc) : RoomDoc :=
  { r with status := "available", assignedPatientId := none,
           assignedPatientName := none, assignedTime := none }

/-- dischargePatient (firebase-service.js): hard-deletes the patient
document, then, only when a roomId was passed, applies `releaseRoomFields`
to that room. -/
def dischargePatient (s : AppState) (patientId _patientName : String)
    (roomId : Option String) : AppState × Bool :=
  let ps := s.patients.filter (fun p => !(p.id == patientId))
  match roomId with
  | none => ({ s with patients := ps }, true)
  | some rid =>
    match updateRoomDoc s.rooms rid releaseRoomFields with
    | none => ({ s with patients := ps }, false)
    | some rs => ({ patients := ps, rooms := rs }, true)

/-- Waiting patient of the C1 counterexample state. -/
def c1Patient : PatientDoc :=
  { id := "p1", name := "Ann", age := 30, contact := "555-1", complaint := ""
    priority := .green, status := "waiting"
    vitals := { bloodPressure := "", pulse := none, temperature := none }
    symptoms := [], checkInTime := some 0, assignedRoom := none
    assignedRoomNumber := none, notes := "" }

/-- Occupied room of the C1 counterexample state: status 'occupied', already
assigned to patient p0. -/
def c1Room : RoomDoc :=
  { id := "r1", roomNumber := "R1", status := "occupied"
    assignedPatientId := some "p0", assignedPatientName := some "Old"
    assignedTime := some 5 }

/-- C1 counterexample state: one waiting patient, one occupied room. -/
def c1State : AppState := { patients := [c1Patient], rooms := [c1Room] }

/-- C1 counterexample: assigning patient p1 to the occupied room r1 does not
fail and does not leave the records unchanged — the call reports success,
the room's occupant is overwritten from p0 to p1, and the patient moves to
'in-treatment'. -/
theorem assignRoom_claim_counterexample :
    c1Room.status ≠ "available"
    ∧ (assignRoom c1State "p1" "r1" "Ann" 500).2 = true
    ∧ (assignRoom c1State "p1" "r1" "Ann" 500).1 ≠ c1State
    ∧ (assignRoom c1State "p1" "r1" "Ann" 500).1.rooms.map
        (fun r => r.assignedPatientId) = [some "p1"]
    ∧ c1State.rooms.map (fun r => r.assignedPatientId) = [some "p0"]
    ∧ (assignRoom c1State "p1" "r1" "Ann" 500).1.patients.map
        (fun p => p.status) = ["in-treatment"] := by
  refine ⟨by decide, by decide, by decide, by decide, by decide, by decide⟩

/-- C1 (amended): assignRoom performs no availability check.  Whenever both
ids resolve, it succeeds unconditionally — whatever the room's status — and
writes both sides: the patient gets the room reference and status
'in-treatment', the room gets status 'occupied' and the patient's id, name
and the assignment time, overwriting any previous occupant. -/
theorem assignRoom_no_availability_check (s : AppState)
    (patientId roomId patientName : String) (now : ℕ)
    (hp : s.patients.any (fun p => p.id == patientId) = true)
    (hr : s.rooms.any (fun r => r.id == roomId) = true) :
    (assignRoom s patientId roomId patientName now).2 = true
    ∧ (assignRoom s patientId roomId patientName now).1.patients
      = s.patients.map (fun p =>
          if p.id == patientId then
            { p with assignedRoom := some roomId, status := "in-treatment" }
          else p)
    ∧ (assignRoom s patientId roomId patientName now).1.rooms
      = s.rooms.map (fun r =>
          if r.id == roomId then
            { r with status := "occupied",
                     assignedPatientId := some patientId,
                     assignedPatientName := some patientName,
                     assignedTime := some now }
          else r) := by
  unfold assignRoom updatePatientDoc updateRoomDoc
  rw [if_pos hp, if_pos hr]
  exact ⟨rfl, rfl, rfl⟩

/-- Witness for C1's amended theorem: in the concrete occupied-room state the
call succeeds. -/
theorem assignRoom_no_availability_check_witness :
    (assignRoom c1State "p1" "r1" "Ann" 500).2 = true :=
  (assignRoom_no_availability_check c1State "p1" "r1" "Ann" 500
    (by decide) (by decide)).1

/-- An already-released room: status 'available', all patient fields null. -/
def c8ClearedRoom : RoomDoc :=
  { id := "r2", roomNumber := "R2", status := "available"
    assignedPatientId := none, assignedPatientName := none,
    assignedTime := none }

/-- C8: the release step of dischargePatient is idempotent.  It always
produces status 'available' with null assignedPatientId, assignedPatientName
and assignedTime; applying it to an already-available (cleared) room changes
nothing; applying the release update twice to the same room of the store
succeeds the second time as well and leaves the state of the first
application unchanged. -/
theorem releaseRoom_idempotent (r : RoomDoc) (rooms : List RoomDoc)
    (roomId : String) :
    releaseRoomFields (releaseRoomFields r) = releaseRoomFields r
    ∧ (releaseRoomFields r).status = "available"
    ∧ (releaseRoomFields r).assignedPatientId = none
    ∧ (releaseRoomFields r).assignedPatientName = none
    ∧ (releaseRoomFields r).assignedTime = none
    ∧ (r.status = "available" ∧ r.assignedPatientId = none
        ∧ r.assignedPatientName = none ∧ r.assignedTime = none →
        releaseRoomFields r = r)
    ∧ (∀ rs, updateRoomDoc rooms roomId releaseRoomFields = some rs →
        updateRoomDoc rs roomId releaseRoomFields = some rs) := by
  refine ⟨rfl, rfl, rfl, rfl, rfl, ?_, ?_⟩
  · rintro ⟨h1, h2, h3, h4⟩
    cases r
    simp_all [releaseRoomFields]
  · intro rs h
    unfold updateRoomDoc at h ⊢
    by_cases hany : rooms.any (fun x => x.id == roomId) = true
    · rw [if_pos hany] at h
      injection h with h'
      subst h'
      have hid : ∀ x : RoomDoc,
          (if x.id == roomId then releaseRoomFields x else x).id = x.id := by
        intro x
        by_cases hx : (x.id == roomId) = true <;>
          simp [hx, releaseRoomFields]
      have hfun : ((fun x : RoomDoc => x.id == roomId) ∘
          (fun x => if x.id == roomId then releaseRoomFields x else x))
          = fun x : RoomDoc => x.id == roomId := by
        funext x
        simp only [Function.comp_apply, hid x]
      have hany2 : ((rooms.map (fun x =>
          if x.id == roomId then releaseRoomFields x else x)).any
            (fun x => x.id == roomId)) = true := by
        rw [List.any_map, hfun]
        exact hany
      rw [if_pos hany2, List.map_map]
      congr 1
      apply List.map_congr_left
      intro x _
      by_cases hx : (x.id == roomId) = true <;>
        simp [Function.comp, hx, releaseRoomFields]
    · rw [if_neg hany] at h
      exact absurd h (by simp)

/-- Witness for C8: releasing the already-cleared room changes nothing. -/
theorem releaseRoom_idempotent_witness :
    releaseRoomFields c8ClearedRoom = c8ClearedRoom :=
  (releaseRoom_idempotent c8ClearedRoom [] "r2").2.2.2.2.2.1
    ⟨rfl, rfl, rfl, rfl⟩

/-- C10: dischargePatient with a null/absent roomId deletes the patient
document, succeeds, and performs no write to any room: the rooms collection
is exactly the one before the call.  Patients with another id survive
unchanged and nothing new appears. -/
theorem dischargePatient_no_room_frame (s : AppState)
    (patientId patientName : String) :
    (dischargePatient s patientId patientName none).1.rooms = s.rooms
    ∧ (dischargePatient s patientId patientName none).2 = true
    ∧ (¬ patientId ∈ (dischargePatient s patientId patientName none).1.patients.map
        (fun p => p.id))
    ∧ (∀ p ∈ s.patients, p.id ≠ patientId →
        p ∈ (dischargePatient s patientId patientName none).1.patients)
    ∧ (∀ p ∈ (dischargePatient s patientId patientName none).1.patients,
        p ∈ s.patients) := by
  refine ⟨rfl, rfl, ?_, ?_, ?_⟩
  · simp [dischargePatient, List.mem_map, List.mem_filter]
  · intro p hp hne
    simp [dischargePatient, List.mem_filter, hp, hne]
  · intro p hp
    simp only [dischargePatient, List.mem_filter] at hp
    exact hp.1

/-- Second patient of the C10 witness state (must survive the discharge). -/
def c10Patient2 : PatientDoc :=
  { id := "p2", name := "Cid", age := 50, contact := "555-3", complaint := ""
    priority := .red, status := "waiting"
    vitals := { bloodPressure := "", pulse := none, temperature := none }
    symptoms := [], checkInTime := some 7, assignedRoom := none
    assignedRoomNumber := none, notes := "" }

/-- C10 witness state: two waiting patients and one occupied room. -/
def c10State : AppState :=
  { patients := [c1Patient, c10Patient2], rooms := [c1Room] }

/-- Witness for C10 at a concrete state: discharging p1 with no roomId keeps
the rooms untouched and keeps patient p2. -/
theorem dischargePatient_no_room_frame_witness :
    (dischargePatient c10State "p1" "Ann" none).1.rooms = c10State.rooms
    ∧ c10Patient2 ∈ (dischargePatient c10State "p1" "Ann" none).1.patients :=
  ⟨(dischargePatient_no_room_frame c10State "p1" "Ann").1,
    (dischargePatient_no_room_frame c10State "p1" "Ann").2.2.2.1 c10Patient2
      (by decide) (by decide)⟩

/-! ### Room seeding at startup (page script 43-69, firebase-service.js addRoom) -/

/-- addRoom (firebase-service.js 421-445): appends a room document with
status 'available' and null patient fields. -/
def addRoom (rooms : List RoomDoc) (roomNumber newId : String) :
    List RoomDoc :=
  rooms ++ [{ id := newId, roomNumber := roomNumber, status := "available",
              assignedPatientId := none, assignedPatientName := none,
              assignedTime := none }]

/-- getAvailableRooms (firebase-service.js): the rooms whose status is
'available' (the roomNumber ordering of the query is irrelevant to the
emptiness check the caller performs). -/
def getAvailableRooms (rooms : List RoomDoc) : List RoomDoc :=
  rooms.filter (fun r => r.status == "available")

/-- The DOMContentLoaded handler (page script): when the getAvailableRooms
result has length 0 it calls addRoom twelve times with the literal numbers
R1 .. R12; `freshId` stands for the store-assigned document ids. -/
def seedRoomsOnStartup (freshId : ℕ → String) (rooms : List RoomDoc) :
    List RoomDoc :=
  if (getAvailableRooms rooms).length = 0 then
    (List.range 12).foldl
      (fun acc i => addRoom acc ("R" ++ toString (i + 1)) (freshId i)) rooms
  else
    rooms

/-- The twelve room documents the seeding creates. -/
def seededRooms (freshId : ℕ → String) : List RoomDoc :=
  (List.range 12).map (fun i =>
    { id := freshId i, roomNumber := "R" ++ toString (i + 1),
      status := "available", assignedPatientId := none,
      assignedPatientName := none, assignedTime := none })

theorem foldl_addRoom (freshId : ℕ → String) : ∀ (idxs : List ℕ)
    (rooms : List RoomDoc),
    idxs.foldl
      (fun acc i => addRoom acc ("R" ++ toString (i + 1)) (freshId i)) rooms
      = rooms ++ idxs.map (fun i =>
          { id := freshId i, roomNumber := "R" ++ toString (i + 1),
            status := "available", assignedPatientId := none,
            assignedPatientName := none, assignedTime := none })
  | [], rooms => by simp
  | i :: idxs, rooms => by
    rw [List.foldl_cons, foldl_addRoom freshId idxs]
    simp [addRoom, List.append_assoc]

/-- Occupied room of the C7 counterexample: its presence makes the rooms
collection non-empty while the available-rooms query is empty. -/
def c7OccupiedRoom : RoomDoc :=
  { id := "r9", roomNumber := "R1", status := "occupied"
    assignedPatientId := some "p9", assignedPatientName := some "Eve"
    assignedTime := some 3 }

/-- C7 counterexample: with a non-empty rooms collection holding one occupied
room, the startup handler still seeds — it appends twelve rooms because its
guard checks emptiness of the available-rooms query result, not of the rooms
collection. -/
theorem seedRooms_claim_counterexample :
    ([c7OccupiedRoom] : List RoomDoc) ≠ []
    ∧ seedRoomsOnStartup (fun i => toString i) [c7OccupiedRoom]
        ≠ [c7OccupiedRoom]
    ∧ (seedRoomsOnStartup (fun i => toString i) [c7OccupiedRoom]).length
        = 13 := by
  refine ⟨by decide, by decide, by decide⟩

/-- C7 (amended): the startup handler seeds if and only if the set of rooms
with status 'available' is empty (not: the rooms collection is empty).  When
it seeds, it appends exactly twelve rooms with the sequential display numbers
R1 through R12, each with status 'available' and null patient fields; when at
least one available room exists, nothing is created. -/
theorem seedRoomsOnStartup_spec (freshId : ℕ → String)
    (rooms : List RoomDoc) :
    seedRoomsOnStartup freshId rooms
      = rooms ++ (if (getAvailableRooms rooms).length = 0 then
          seededRooms freshId else [])
    ∧ (seededRooms freshId).map (fun r => r.roomNumber)
      = ["R1", "R2", "R3", "R4", "R5", "R6", "R7", "R8", "R9", "R10",
         "R11", "R12"]
    ∧ (seededRooms freshId).all (fun r =>
        r.status == "available" && r.assignedPatientId == none
          && r.assignedPatientName == none && r.assignedTime == none)
      = true := by
  refine ⟨?_, ?_, ?_⟩
  · unfold seedRoomsOnStartup
    split_ifs with h
    · rw [foldl_addRoom freshId (List.range 12) rooms]
      rfl
    · simp
  · rw [seededRooms, List.map_map]
    rfl
  · simp [seededRooms, List.all_eq_true]

/-! ### Registration and the duplicate check
(checkIfPatientExists, firebase-service.js 611-630;
handleNewPatientSubmit, page script 98-175) -/

/-- Outcome of a registration attempt as the submit handler distinguishes
them: the empty-field alert, the patient-exists popup carrying the existing
record, or a successful registration. -/
inductive RegisterResult where
  | validationStop
  | duplicate (existing : PatientDoc)
  | registered (newId : String)
deriving DecidableEq, Repr

/-- The JS String trim the submit handler applies to the name and contact
fields: drop the whitespace from both ends. -/
def trimStr (s : String) : String :=
  ⟨(((s.data.dropWhile Char.isWhitespace).reverse.dropWhile
      Char.isWhitespace).reverse)⟩

/-- checkIfPatientExists: query of the patients collection on name == and
contact ==, surfacing the first matching document.  Every document in the
collection is non-discharged, because discharge hard-deletes. -/
def checkIfPatientExists (patients : List PatientDoc)
    (name contact : String) : Option PatientDoc :=
  (patients.filter (fun p => p.name == name && p.contact == contact)).head?

/-- handleNewPatientSubmit composed with addPatient: trim name and contact,
reject when either is empty, stop with the existing record when the
duplicate check finds one, otherwise classify the priority and append the
new patient document (status 'waiting', checkInTime = serverTimestamp).
The stored document keeps the raw (untrimmed) form values, as the code
does. -/
def handleNewPatientSubmit (s : AppState) (rawName rawContact : String)
    (age : ℕ) (complaint : String) (symptoms : List String)
    (vitals : Vitals) (notes : String) (newId : String) (now : ℕ) :
    AppState × RegisterResult :=
  let name := trimStr rawName
  let contact := trimStr rawContact
  if name = "" ∨ contact = "" then
    (s, .validationStop)
  else
    match checkIfPatientExists s.patients name contact with
    | some existing => (s, .duplicate existing)
    | none =>
      let priority := calculatePriority symptoms vitals
      let newDoc : PatientDoc :=
        { id := newId, name := rawName, age := age, contact := rawContact,
          complaint := complaint, priority := priority, status := "waiting",
          vitals := vitals, symptoms := symptoms, checkInTime := some now,
          assignedRoom := none, assignedRoomNumber := none, notes := notes }
      ({ s with patients := s.patients ++ [newDoc] }, .registered newId)

/-- C9: when the trimmed (name, contact) pair of a well-formed registration
request exactly matches some patient document, the submit handler stops with
a duplicate outcome that surfaces a conflicting existing record and the
store is left unchanged; when no document matches, it registers, appending
exactly one new waiting document with the submitted identity. -/
theorem handleNewPatientSubmit_spec (s : AppState)
    (rawName rawContact : String) (age : ℕ) (complaint : String)
    (symptoms : List String) (vitals : Vitals) (notes : String)
    (newId : String) (now : ℕ)
    (h1 : trimStr rawName ≠ "") (h2 : trimStr rawContact ≠ "") :
    ((∃ p ∈ s.patients, p.name = trimStr rawName
        ∧ p.contact = trimStr rawContact) →
      (handleNewPatientSubmit s rawName rawContact age complaint symptoms
          vitals notes newId now).1 = s
      ∧ ∃ ex, (handleNewPatientSubmit s rawName rawContact age complaint
            symptoms vitals notes newId now).2 = .duplicate ex
          ∧ ex ∈ s.patients ∧ ex.name = trimStr rawName
          ∧ ex.contact = trimStr rawContact)
    ∧ ((¬ ∃ p ∈ s.patients, p.name = trimStr rawName
        ∧ p.contact = trimStr rawContact) →
      (handleNewPatientSubmit s rawName rawContact age complaint symptoms
          vitals notes newId now).2 = .registered newId
      ∧ ∃ d : PatientDoc,
          (handleNewPatientSubmit s rawName rawContact age complaint
            symptoms vitals notes newId now).1.patients
            = s.patients ++ [d]
          ∧ d.status = "waiting" ∧ d.name = rawName
          ∧ d.contact = rawContact ∧ d.id = newId) := by
  have hcond : ¬ (trimStr rawName = "" ∨ trimStr rawContact = "") := by
    tauto
  constructor
  · rintro ⟨p, hp, hn, hc⟩
    cases hf : s.patients.filter
        (fun q => q.name == trimStr rawName && q.contact == trimStr rawContact) with
    | nil =>
      rw [List.filter_eq_nil_iff] at hf
      exact absurd (by simp [hn, hc]) (hf p hp)
    | cons ex tl =>
      have hex : checkIfPatientExists s.patients (trimStr rawName)
          (trimStr rawContact) = some ex := by
        unfold checkIfPatientExists
        rw [hf]
        rfl
      have hxmem : ex ∈ s.patients.filter
          (fun q => q.name == trimStr rawName && q.contact == trimStr rawContact) := by
        rw [hf]
        exact List.mem_cons_self ex tl
      rw [List.mem_filter] at hxmem
      have hval : handleNewPatientSubmit s rawName rawContact age complaint
          symptoms vitals notes newId now = (s, .duplicate ex) := by
        unfold handleNewPatientSubmit
        rw [if_neg hcond, hex]
      refine ⟨by rw [hval], ex, by rw [hval], hxmem.1, ?_, ?_⟩
      · have := hxmem.2
        simp only [Bool.and_eq_true, beq_iff_eq] at this
        exact this.1
      · have := hxmem.2
        simp only [Bool.and_eq_true, beq_iff_eq] at this
        exact this.2
  · intro hno
    have hnil : s.patients.filter
        (fun q => q.name == trimStr rawName && q.contact == trimStr rawContact)
        = [] := by
      rw [List.filter_eq_nil_iff]
      intro q hq hqpred
      simp only [Bool.and_eq_true, beq_iff_eq] at hqpred
      exact hno ⟨q, hq, hqpred.1, hqpred.2⟩
    have hex : checkIfPatientExists s.patients (trimStr rawName)
        (trimStr rawContact) = none := by
      unfold checkIfPatientExists
      rw [hnil]
      rfl
    have hval : (handleNewPatientSubmit s rawName rawContact age complaint
        symptoms vitals notes newId now)
        = ({ s with patients := s.patients
              ++ [{ id := newId, name := rawName, age := age,
                    contact := rawContact, complaint := complaint,
                    priority := calculatePriority symptoms vitals,
                    status := "waiting", vitals := vitals,
                    symptoms := symptoms, checkInTime := some now,
                    assignedRoom := none, assignedRoomNumber := none,
                    notes := notes }] }, .registered newId) := by
      unfold handleNewPatientSubmit
      rw [if_neg hcond, hex]
    refine ⟨by rw [hval], _, by rw [hval], rfl, rfl, rfl, rfl⟩

/-- Stored patient used by the C9 witness. -/
def c9Jane : PatientDoc :=
  { id := "p1", name := "Jane", age := 25, contact := "555-1", complaint := ""
    priority := .green, status := "waiting"
    vitals := { bloodPressure := "", pulse := none, temperature := none }
    symptoms := [], checkInTime := some 1, assignedRoom := none
    assignedRoomNumber := none, notes := "" }

/-- Witness for C9: with one stored patient Jane / 555-1, submitting the
identical pair stops as a duplicate surfacing that record and leaves the
store unchanged. -/
theorem handleNewPatientSubmit_spec_witness :
    (handleNewPatientSubmit { patients := [c9Jane], rooms := [] } "Jane"
        "555-1" 25 "" [] c9Jane.vitals "" "p2" 77).1
      = { patients := [c9Jane], rooms := [] }
    ∧ c9Jane.name = "Jane" := by
  refine ⟨?_, by decide⟩
  exact ((handleNewPatientSubmit_spec { patients := [c9Jane], rooms := [] }
    "Jane" "555-1" 25 "" [] c9Jane.vitals "" "p2" 77 (by decide)
    (by decide)).1 ⟨c9Jane, by decide, by decide, by decide⟩).1

end MediQueue
